import Mathlib

/-!
A shallow embedding, in Lean 4, of the core logic of the mortgage-assistant
backend (`backend/app/tools.py`, `backend/app/agent.py`, `backend/app/state.py`,
`backend/app/main.py`), together with theorems settling the specification
claims about it.

Modelling conventions:
* Python floats are modelled as exact rationals (`ℚ`); `round(x, 2)` is
  modelled by `round2` below.
* Python dicts whose shapes are fixed by the source are modelled as
  structures; dicts that either carry a success payload or an `"error"` key
  are modelled as `Except`.
* Human-readable strings that the source assembles with numeric format
  specifiers (`f"{x:,.0f}"` …) are modelled either as structured values
  carrying the formatted numbers, or with `toString` as a stand-in for the
  format specifier; the claims never depend on the rendered digits.
-/

/-- Python `round(x, 2)`, on exact rationals: round to the nearest
multiple of 1/100 (ties do not matter for any claim below). -/
def round2 (x : ℚ) : ℚ := (round (100 * x) : ℤ) / 100

/-- A Python/JSON value as it can appear as a tool argument.
`pybool` is kept separate because Python `bool` is an `int` subclass, so it
passes `isinstance(value, (int, float))`. Lists and nested dicts never reach
the validator in this code base and are folded into `pyother`. -/
inductive PyVal where
  | num (q : ℚ)
  | pybool (b : Bool)
  | str (s : String)
  | pyother
deriving Repr, DecidableEq

/-- The check `isinstance(value, (int, float))` — recall Python `bool` is an `int`. -/
def PyVal.isNumeric : PyVal → Bool
  | .num _ => true
  | .pybool _ => true
  | _ => false

/-- The check `value > 0` for a value that passed the `isinstance` check
(`True` counts as `1`, `False` as `0`). -/
def PyVal.isPositive : PyVal → Bool
  | .num q => decide (0 < q)
  | .pybool b => b
  | _ => false

/-- The numeric value of a `PyVal` when Python would use it in arithmetic or
a comparison; `none` models the `TypeError` raised for a non-numeric value. -/
def PyVal.toNumber : PyVal → Option ℚ
  | .num q => some q
  | .pybool b => some (if b then 1 else 0)
  | _ => none

/-- As `toNumber`, but for parameters annotated `int` in the source and used
as exponents/counters. A non-integral rational is modelled as a fault; the
source would compute a float power there, which has no exact rational
counterpart — no claim depends on that corner. -/
def PyVal.toIntNum (v : PyVal) : Option ℤ :=
  v.toNumber.bind (fun q => if q.den = 1 then some q.num else none)

/-- Success payload of `calculate_emi` (tools.py lines 53-61). -/
structure EmiResult where
  emi : ℚ
  total_amount : ℚ
  total_interest : ℚ
  loan_amount : ℚ
  interest_rate : ℚ
  tenure_years : ℤ
  tenure_months : ℤ
deriving Repr, DecidableEq

/-- Function `calculate_emi` (tools.py lines 12-61). Error strings are the literal
strings of the source. -/
def calculate_emi (loan_amount interest_rate : ℚ) (tenure_years : ℤ) :
    Except String EmiResult :=
  if loan_amount ≤ 0 then Except.error "Loan amount must be positive"
  else if tenure_years ≤ 0 ∨ 25 < tenure_years then
    Except.error "Tenure must be between 1 and 25 years"
  else if interest_rate < 0 then Except.error "Interest rate cannot be negative"
  else
    let monthly_rate : ℚ := interest_rate / 100 / 12
    let num_months : ℤ := tenure_years * 12
    let emi : ℚ :=
      if monthly_rate = 0 then loan_amount / (num_months : ℚ)
      else loan_amount * monthly_rate * (1 + monthly_rate) ^ num_months.toNat /
        ((1 + monthly_rate) ^ num_months.toNat - 1)
    let total_amount : ℚ := emi * (num_months : ℚ)
    let total_interest : ℚ := total_amount - loan_amount
    Except.ok
      { emi := round2 emi
        total_amount := round2 total_amount
        total_interest := round2 total_interest
        loan_amount := loan_amount
        interest_rate := interest_rate
        tenure_years := tenure_years
        tenure_months := num_months }

/-- The `message` field of the `check_ltv` payload: `"Valid"`, or the
f-string `"LTV exceeds 80%. Minimum down payment required: … AED"` carrying
the (unrounded) minimum down payment that the format specifier would print. -/
inductive LtvMessage where
  | valid
  | exceedsLimit (min_down_payment_required : ℚ)
deriving Repr, DecidableEq

/-- Success payload of `check_ltv` (tools.py lines 95-104). -/
structure LtvResult where
  ltv_ratio : ℚ
  loan_amount : ℚ
  max_loanable : ℚ
  min_down_payment_required : ℚ
  is_valid : Bool
  property_price : ℚ
  down_payment : ℚ
  message : LtvMessage
deriving Repr, DecidableEq

/-- Function `check_ltv` (tools.py lines 64-104). -/
def check_ltv (property_price down_payment : ℚ) : Except String LtvResult :=
  if property_price ≤ 0 then Except.error "Property price must be positive"
  else if down_payment < 0 then Except.error "Down payment cannot be negative"
  else if property_price ≤ down_payment then
    Except.error "Down payment cannot exceed property price"
  else
    let loan_amount : ℚ := property_price - down_payment
    let ltv_ratio : ℚ := loan_amount / property_price * 100
    let max_ltv : ℚ := 80
    let max_loanable : ℚ := property_price * (max_ltv / 100)
    let min_down_payment_required : ℚ := property_price - max_loanable
    let is_valid : Bool := decide (ltv_ratio ≤ max_ltv)
    Except.ok
      { ltv_ratio := round2 ltv_ratio
        loan_amount := round2 loan_amount
        max_loanable := round2 max_loanable
        min_down_payment_required := round2 min_down_payment_required
        is_valid := is_valid
        property_price := property_price
        down_payment := down_payment
        message := if is_valid then .valid
          else .exceedsLimit min_down_payment_required }

/-- Success payload of `calculate_upfront_costs` (tools.py lines 132-140). -/
structure UpfrontResult where
  property_price : ℚ
  transfer_fee : ℚ
  agency_fee : ℚ
  misc_fee : ℚ
  total_upfront_costs : ℚ
  percentage : ℚ
  total_with_costs : ℚ
deriving Repr, DecidableEq

/-- Function `calculate_upfront_costs` (tools.py lines 107-140). -/
def calculate_upfront_costs (property_price : ℚ) : Except String UpfrontResult :=
  if property_price ≤ 0 then Except.error "Property price must be positive"
  else
    let transfer_fee : ℚ := property_price * (4/100)
    let agency_fee : ℚ := property_price * (2/100)
    let misc_fee : ℚ := property_price * (1/100)
    let total_upfront : ℚ := transfer_fee + agency_fee + misc_fee
    Except.ok
      { property_price := property_price
        transfer_fee := round2 transfer_fee
        agency_fee := round2 agency_fee
        misc_fee := round2 misc_fee
        total_upfront_costs := round2 total_upfront
        percentage := 7
        total_with_costs := round2 (property_price + total_upfront) }

/-- One entry of the `reasoning` list of `buy_vs_rent_analysis`. Each is an
f-string in the source; we carry the rule that fired together with the
numbers the format specifiers would print. -/
inductive BvrReason where
  | stayShort (total_upfront : ℚ)
  | stayLong
  | ownershipCheaper (monthly_ownership_cost monthly_rent : ℚ)
  | rentCheaper (monthly_rent monthly_ownership_cost : ℚ)
  | notAffordable (emi affordability_ratio : ℚ)
deriving Repr, DecidableEq

/-- Outcome of `validate_tool_arguments` (agent.py lines 170-218): the
source returns `(bool, str)`; the error string for the missing case names
every absent required field, and for the invalid case lists every offending
field with its value echoed. We keep those lists structured instead of
rendering the f-string. -/
inductive ValidationOutcome where
  | valid
  | missingParams (missing : List String)
  | invalidParams (invalid : List (String × PyVal))
deriving Repr, DecidableEq

/-- Success payload of `buy_vs_rent_analysis` (tools.py lines 237-251). -/
structure BvrResult where
  recommendation : String
  reasoning : List BvrReason
  monthly_rent : ℚ
  monthly_ownership_cost : ℚ
  monthly_interest : ℚ
  maintenance_estimate : ℚ
  emi : ℚ
  affordability_ratio : ℚ
  is_affordable : Bool
  stay_years : ℤ
  upfront_costs : ℚ
  ltv_details : LtvResult
  emi_details : EmiResult
deriving Repr, DecidableEq

instance {ε α : Type} [DecidableEq ε] [DecidableEq α] : DecidableEq (Except ε α) := fun a b =>
  match a, b with
  | .error e, .error f =>
    if h : e = f then .isTrue (by rw [h]) else .isFalse (fun hh => by cases hh; exact h rfl)
  | .ok x, .ok y =>
    if h : x = y then .isTrue (by rw [h]) else .isFalse (fun hh => by cases hh; exact h rfl)
  | .error _, .ok _ => .isFalse (fun hh => by cases hh)
  | .ok _, .error _ => .isFalse (fun hh => by cases hh)

/-- An `{"error": …}` payload as produced by the tool layer: the plain
message strings of the calculators, the LTV rejection of
`buy_vs_rent_analysis` (which carries the whole `ltv_details` outcome), a
validator rejection, the unknown-tool message, or a caught execution
fault (`"Tool execution failed: …"`). -/
inductive ToolError where
  | plain (msg : String)
  | ltvRejected (ltv_details : Except String LtvResult)
  | validationFailed (outcome : ValidationOutcome)
  | unknownTool (tool_name : String)
  | execFailed (msg : String)
deriving Repr, DecidableEq

/-- The read `ltv_check.get("is_valid", False)` — an error dict has no `is_valid`
key, so the default `False` is returned. -/
def ltvIsValid : Except String LtvResult → Bool
  | .ok l => l.is_valid
  | .error _ => false

/-- Function `buy_vs_rent_analysis` (tools.py lines 143-251). -/
def buy_vs_rent_analysis (monthly_rent property_price : ℚ) (stay_years : ℤ)
    (income down_payment interest_rate : ℚ) : Except ToolError BvrResult :=
  if monthly_rent ≤ 0 then Except.error (.plain "Monthly rent must be positive")
  else if property_price ≤ 0 then Except.error (.plain "Property price must be positive")
  else if stay_years ≤ 0 then Except.error (.plain "Stay duration must be positive")
  else if income ≤ 0 then Except.error (.plain "Income must be positive")
  else
    let loan_amount : ℚ := property_price - down_payment
    let ltv_check := check_ltv property_price down_payment
    if ltvIsValid ltv_check = false then Except.error (.ltvRejected ltv_check)
    else
      match ltv_check, calculate_emi loan_amount interest_rate 25 with
      | .error _, _ => Except.error (.ltvRejected ltv_check)
      | _, .error e => Except.error (.plain e)
      | .ok lc, .ok emi_result =>
        let emi := emi_result.emi
        let monthly_interest : ℚ := loan_amount * interest_rate / 100 / 12
        let maintenance_estimate : ℚ := property_price * (1/1000) / 12
        let monthly_ownership_cost : ℚ := monthly_interest + maintenance_estimate
        -- `calculate_upfront_costs` cannot fail here (`property_price > 0`);
        -- the `0` default stands for the unreachable error branch, where the
        -- source would fault on the missing key.
        let total_upfront : ℚ :=
          match calculate_upfront_costs property_price with
          | .ok u => u.total_upfront_costs
          | .error _ => 0
        let firstPass : String × List BvrReason :=
          if stay_years < 3 then ("RENT", [.stayShort total_upfront])
          else if 5 < stay_years then ("BUY", [.stayLong])
          else if monthly_ownership_cost < monthly_rent then
            ("BUY", [.ownershipCheaper monthly_ownership_cost monthly_rent])
          else ("RENT", [.rentCheaper monthly_rent monthly_ownership_cost])
        let affordability_ratio : ℚ := emi / income * 100
        let is_affordable : Bool := decide (affordability_ratio ≤ 30)
        let final : String × List BvrReason :=
          if is_affordable = false then
            ("RENT", firstPass.2 ++ [.notAffordable emi affordability_ratio])
          else firstPass
        Except.ok
          { recommendation := final.1
            reasoning := final.2
            monthly_rent := monthly_rent
            monthly_ownership_cost := round2 monthly_ownership_cost
            monthly_interest := round2 monthly_interest
            maintenance_estimate := round2 maintenance_estimate
            emi := emi
            affordability_ratio := round2 affordability_ratio
            is_affordable := is_affordable
            stay_years := stay_years
            upfront_costs := total_upfront
            ltv_details := lc
            emi_details := emi_result }

/-- Argument dicts, as an association list (dict keys are unique, so the
first binding is the binding). -/
abbrev ArgMap := List (String × PyVal)

/-- The test `param in arguments`. -/
def hasKey (args : ArgMap) (k : String) : Bool :=
  args.any (fun kv => kv.1 = k)

/-- The read `arguments[param]` (first binding). -/
def lookupArg (args : ArgMap) (k : String) : Option PyVal :=
  (args.find? (fun kv => kv.1 = k)).map (fun kv => kv.2)

/-- The `positive_params` table of `validate_tool_arguments`
(agent.py lines 183-188). -/
def positive_params (tool_name : String) : List String :=
  if tool_name = "calculate_emi" then ["loan_amount"]
  else if tool_name = "check_ltv" then ["property_price"]
  else if tool_name = "calculate_upfront_costs" then ["property_price"]
  else if tool_name = "buy_vs_rent_analysis" then
    ["property_price", "monthly_rent", "income", "down_payment", "stay_years"]
  else []

/-- The `required_params` table (agent.py lines 191-196); `none` models
`tool_name not in required_params`. -/
def required_params (tool_name : String) : Option (List String) :=
  if tool_name = "calculate_emi" then some ["loan_amount", "tenure_years"]
  else if tool_name = "check_ltv" then some ["property_price", "down_payment"]
  else if tool_name = "calculate_upfront_costs" then some ["property_price"]
  else if tool_name = "buy_vs_rent_analysis" then
    some ["monthly_rent", "property_price", "stay_years", "income", "down_payment"]
  else none

/-- Function `validate_tool_arguments` (agent.py lines 170-218). -/
def validate_tool_arguments (tool_name : String) (arguments : ArgMap) :
    ValidationOutcome :=
  match required_params tool_name with
  | none => .valid    -- unknown tool: let execute_tool handle it
  | some req =>
    let missing := req.filter (fun p => hasKey arguments p = false)
    if missing ≠ [] then .missingParams missing
    else
      let invalid := (positive_params tool_name).filterMap (fun p =>
        match lookupArg arguments p with
        | some v =>
          if (v.isNumeric && v.isPositive) = false then some (p, v) else none
        | none => none)
      if invalid ≠ [] then .invalidParams invalid else .valid

/-- The keys of the `TOOL_FUNCTIONS` registry (agent.py lines 162-167). -/
def TOOL_NAMES : List String :=
  ["calculate_emi", "check_ltv", "calculate_upfront_costs", "buy_vs_rent_analysis"]

/-- Success payloads of the four calculators, tagged per tool. -/
inductive ToolOutput where
  | emi (r : EmiResult)
  | ltv (r : LtvResult)
  | upfront (r : UpfrontResult)
  | bvr (r : BvrResult)
deriving Repr, DecidableEq

/-- The uniform result dict of the tool layer: a success payload or an
`{"error": …}` payload. -/
abbrev ToolResult := Except ToolError ToolOutput

/-- The check `set(arguments) ⊆ allowed` — an unexpected keyword argument makes the
Python call itself raise `TypeError`. -/
def keysAllowed (args : ArgMap) (allowed : List String) : Bool :=
  args.all (fun kv => allowed.contains kv.1)

/-- The call `calculate_emi(**arguments)`: the outer `Except` models a raised
exception (bad keywords, a missing required parameter, or a `TypeError`
from comparing a non-number), replicating the order in which the source
would hit each fault; the inner value is the function result. -/
def call_calculate_emi (args : ArgMap) : Except String (Except String EmiResult) :=
  if keysAllowed args ["loan_amount", "interest_rate", "tenure_years"] = false then
    Except.error "TypeError: unexpected keyword argument"
  else
    match lookupArg args "loan_amount", lookupArg args "interest_rate",
        lookupArg args "tenure_years" with
    | some la, some ir, some ty =>
      match la.toNumber with
      | none => Except.error "TypeError: comparison not supported for loan_amount"
      | some laq =>
        if laq ≤ 0 then Except.ok (Except.error "Loan amount must be positive")
        else
          match ty.toIntNum with
          | none => Except.error "TypeError: comparison not supported for tenure_years"
          | some tyz =>
            if tyz ≤ 0 ∨ 25 < tyz then
              Except.ok (Except.error "Tenure must be between 1 and 25 years")
            else
              match ir.toNumber with
              | none => Except.error "TypeError: comparison not supported for interest_rate"
              | some irq => Except.ok (calculate_emi laq irq tyz)
    | _, _, _ => Except.error "TypeError: missing required argument"

/-- The call `check_ltv(**arguments)`, with the same raising conventions. -/
def call_check_ltv (args : ArgMap) : Except String (Except String LtvResult) :=
  if keysAllowed args ["property_price", "down_payment"] = false then
    Except.error "TypeError: unexpected keyword argument"
  else
    match lookupArg args "property_price", lookupArg args "down_payment" with
    | some pp, some dp =>
      match pp.toNumber with
      | none => Except.error "TypeError: comparison not supported for property_price"
      | some V =>
        if V ≤ 0 then Except.ok (Except.error "Property price must be positive")
        else
          match dp.toNumber with
          | none => Except.error "TypeError: comparison not supported for down_payment"
          | some D => Except.ok (check_ltv V D)
    | _, _ => Except.error "TypeError: missing required argument"

/-- The call `calculate_upfront_costs(**arguments)`. -/
def call_calculate_upfront_costs (args : ArgMap) :
    Except String (Except String UpfrontResult) :=
  if keysAllowed args ["property_price"] = false then
    Except.error "TypeError: unexpected keyword argument"
  else
    match lookupArg args "property_price" with
    | some pp =>
      match pp.toNumber with
      | none => Except.error "TypeError: comparison not supported for property_price"
      | some V => Except.ok (calculate_upfront_costs V)
    | none => Except.error "TypeError: missing required argument"

/-- The call `buy_vs_rent_analysis(**arguments)` (`interest_rate` defaults to 4.5);
each argument is converted at the first point the source would use it as a
number, so a fault and an early validation error are ordered as in Python. -/
def call_buy_vs_rent_analysis (args : ArgMap) :
    Except String (Except ToolError BvrResult) :=
  if keysAllowed args ["monthly_rent", "property_price", "stay_years", "income",
      "down_payment", "interest_rate"] = false then
    Except.error "TypeError: unexpected keyword argument"
  else
    match lookupArg args "monthly_rent", lookupArg args "property_price",
        lookupArg args "stay_years", lookupArg args "income",
        lookupArg args "down_payment" with
    | some mr, some pp, some sy, some inc, some dp =>
      let ir := (lookupArg args "interest_rate").getD (.num (9/2))
      match mr.toNumber with
      | none => Except.error "TypeError: comparison not supported for monthly_rent"
      | some R =>
        if R ≤ 0 then Except.ok (Except.error (.plain "Monthly rent must be positive"))
        else
          match pp.toNumber with
          | none => Except.error "TypeError: comparison not supported for property_price"
          | some V =>
            if V ≤ 0 then Except.ok (Except.error (.plain "Property price must be positive"))
            else
              match sy.toIntNum with
              | none => Except.error "TypeError: comparison not supported for stay_years"
              | some y =>
                if y ≤ 0 then Except.ok (Except.error (.plain "Stay duration must be positive"))
                else
                  match inc.toNumber with
                  | none => Except.error "TypeError: comparison not supported for income"
                  | some I =>
                    if I ≤ 0 then Except.ok (Except.error (.plain "Income must be positive"))
                    else
                      match dp.toNumber with
                      | none => Except.error "TypeError: arithmetic not supported for down_payment"
                      | some D =>
                        let ltv_check := check_ltv V D
                        if ltvIsValid ltv_check = false then
                          Except.ok (Except.error (.ltvRejected ltv_check))
                        else
                          match ir.toNumber with
                          | none => Except.error "TypeError: comparison not supported for interest_rate"
                          | some r => Except.ok (buy_vs_rent_analysis R V y I D r)
    | _, _, _, _, _ => Except.error "TypeError: missing required argument"

/-- The call `TOOL_FUNCTIONS[tool_name](**arguments)`: dispatch to the right
calculator and normalize its payload into `ToolResult`; the outer `Except`
still models a raised exception. Only called with registered names. -/
def callTool (tool_name : String) (args : ArgMap) : Except String ToolResult :=
  if tool_name = "calculate_emi" then
    (call_calculate_emi args).map (fun r =>
      match r with
      | .ok res => .ok (.emi res)
      | .error e => .error (.plain e))
  else if tool_name = "check_ltv" then
    (call_check_ltv args).map (fun r =>
      match r with
      | .ok res => .ok (.ltv res)
      | .error e => .error (.plain e))
  else if tool_name = "calculate_upfront_costs" then
    (call_calculate_upfront_costs args).map (fun r =>
      match r with
      | .ok res => .ok (.upfront res)
      | .error e => .error (.plain e))
  else if tool_name = "buy_vs_rent_analysis" then
    (call_buy_vs_rent_analysis args).map (fun r =>
      match r with
      | .ok res => .ok (.bvr res)
      | .error e => .error e)
  else
    Except.error "unreachable: unregistered tool"

/-- Function `execute_tool` (agent.py lines 221-245): unknown name, then the
validator, then the guarded call with every raised exception converted to
an `{"error": "Tool execution failed: …"}` payload. Total by construction —
no fault escapes to the caller. -/
def execute_tool (tool_name : String) (arguments : ArgMap) : ToolResult :=
  if TOOL_NAMES.contains tool_name = false then
    Except.error (.unknownTool tool_name)
  else
    match validate_tool_arguments tool_name arguments with
    | .valid =>
      match callTool tool_name arguments with
      | .ok r => r
      | .error e => Except.error (.execFailed e)
    | outcome => Except.error (.validationFailed outcome)

/-- One stored message of a session (state.py lines 44-48; the wall-clock
`timestamp` field is outside the model). -/
structure StoredMessage where
  role : String
  content : String
deriving Repr, DecidableEq

/-- One session of the store (state.py lines 25-29; `created_at` and
`user_data` play no part in any claim and are outside the model). -/
structure SessionData where
  messages : List StoredMessage
deriving Repr, DecidableEq

/-- The dict `ConversationState.conversations`, keyed by session id, as an
insertion-ordered association list with unique keys. -/
structure ConversationState where
  conversations : List (String × SessionData)
deriving Repr, DecidableEq

/-- Method `session_exists` (state.py lines 101-103). -/
def session_exists (st : ConversationState) (session_id : String) : Bool :=
  st.conversations.any (fun kv => kv.1 = session_id)

/-- Dict assignment `d[k] = v`: replace in place if the key exists, else
append (Python dicts preserve insertion order). -/
def dictInsert (l : List (String × SessionData)) (k : String) (v : SessionData) :
    List (String × SessionData) :=
  if l.any (fun kv => kv.1 = k) then
    l.map (fun kv => if kv.1 = k then (k, v) else kv)
  else l ++ [(k, v)]

/-- Method `create_session` (state.py lines 17-30); the fresh UUID is passed in. -/
def create_session (st : ConversationState) (session_id : String) :
    ConversationState :=
  { conversations := dictInsert st.conversations session_id { messages := [] } }

/-- Method `add_message` (state.py lines 32-48): raises (`Except.error`) on an
unknown session id, else appends the message to that session. -/
def add_message (st : ConversationState) (session_id role content : String) :
    Except String ConversationState :=
  if session_exists st session_id = false then
    Except.error ("Session " ++ session_id ++ " not found")
  else
    Except.ok { conversations := st.conversations.map (fun kv =>
      if kv.1 = session_id then
        (kv.1, { messages := kv.2.messages ++ [{ role := role, content := content }] })
      else kv) }

/-- Method `get_history` (state.py lines 50-71): `[]` for an unknown id, else the
stored messages projected to Groq `(role, content)` shape. -/
def get_history (st : ConversationState) (session_id : String) :
    List (String × String) :=
  match st.conversations.find? (fun kv => kv.1 = session_id) with
  | none => []
  | some kv => kv.2.messages.map (fun m => (m.role, m.content))

/-- A tool call as the model requests it: its correlation id, tool name, the
raw argument text, and the argument dict after `json.loads` plus
`convert_strings_to_numbers` (an empty dict models `JSONDecodeError`,
main.py lines 207-212). -/
structure ToolCallReq where
  id : String
  fname : String
  argumentsText : String
  args : ArgMap
deriving Repr, DecidableEq

/-- One model response: text content (`""` models `None`) and the requested
tool calls (`[]` models `None`, matching Python truthiness). -/
structure ModelResponse where
  content : String
  tool_calls : List ToolCallReq
deriving Repr, DecidableEq

/-- The entry of `tool_calls_data` kept for one invocation (main.py lines
243-250 and 261-268): correlation id, tool name, raw argument text. -/
structure ToolCallRecord where
  id : String
  fname : String
  argumentsText : String
deriving Repr, DecidableEq

/-- The `content` of a `role: "tool"` transcript message: `json.dumps` of
either an execution result or the synthetic
`{"error": …, "skipped": True}` payload of a skipped invocation. -/
inductive ToolMsgContent where
  | executed (r : ToolResult)
  | skippedResult (outcome : ValidationOutcome)
deriving Repr, DecidableEq

/-- One entry of the `messages` working transcript of
`stream_chat_response`. -/
inductive ChatMessage where
  | plain (role content : String)
  | assistantToolCalls (content : String) (tool_calls : List ToolCallRecord)
  | toolMsg (tool_call_id : String) (content : ToolMsgContent)
deriving Repr, DecidableEq

/-- The read `msg.get("role")`. -/
def ChatMessage.roleOf : ChatMessage → String
  | .plain role _ => role
  | .assistantToolCalls _ _ => "assistant"
  | .toolMsg _ _ => "tool"

/-- One entry of `tool_results_list` (main.py lines 222-226 and 237-241). -/
structure TraceRecord where
  tool_name : String
  arguments : ArgMap
  result : ToolMsgContent
deriving Repr, DecidableEq

/-- The loop-carried state of `stream_chat_response`: the working
transcript, the accumulated streamed text, and the trace of tool results. -/
structure StepAcc where
  messages : List ChatMessage
  full_response : String
  tool_results_list : List TraceRecord
deriving Repr, DecidableEq

/-- One tool-executing pass of the loop (main.py lines 195-287): stream any
assistant text; split the calls into valid and invalid by the validator;
record a skipped trace entry per invalid call (during the first pass, in
request order); execute the valid calls and record their results; append to
the transcript one `role: "tool"` message per valid call, then one per
invalid call, then the assistant message carrying every invocation
(preserving correlation ids and raw argument text). -/
def execToolCallsStep (resp : ModelResponse) (acc : StepAcc) : StepAcc :=
  let valid := resp.tool_calls.filter
    (fun tc => validate_tool_arguments tc.fname tc.args = .valid)
  let invalid := resp.tool_calls.filter
    (fun tc => ¬ validate_tool_arguments tc.fname tc.args = .valid)
  let tool_calls_data : List ToolCallRecord :=
    (valid ++ invalid).map (fun tc => ⟨tc.id, tc.fname, tc.argumentsText⟩)
  { messages := acc.messages
      ++ valid.map (fun tc =>
        .toolMsg tc.id (.executed (execute_tool tc.fname tc.args)))
      ++ invalid.map (fun tc =>
        .toolMsg tc.id (.skippedResult (validate_tool_arguments tc.fname tc.args)))
      ++ (if tool_calls_data ≠ [] then
        [.assistantToolCalls resp.content tool_calls_data] else [])
    full_response := acc.full_response ++ resp.content
    tool_results_list := acc.tool_results_list
      ++ invalid.map (fun tc =>
        ⟨tc.fname, tc.args, .skippedResult (validate_tool_arguments tc.fname tc.args)⟩)
      ++ valid.map (fun tc =>
        ⟨tc.fname, tc.args, .executed (execute_tool tc.fname tc.args)⟩) }

/-- The `while iteration < max_iterations` loop (main.py lines 171-299),
with the LLM as an oracle from the working transcript to a response. Each
entered iteration makes exactly one LLM round trip (counted in the second
component): a response with tool calls runs the tool pass and loops; a
response without breaks after streaming its text. -/
def chatLoop (oracle : List ChatMessage → ModelResponse) :
    Nat → StepAcc → StepAcc × Nat
  | 0, acc => (acc, 0)
  | Nat.succ fuel, acc =>
    let resp := oracle acc.messages
    if resp.tool_calls = [] then
      ({ acc with full_response := acc.full_response ++ resp.content }, 1)
    else
      let rest := chatLoop oracle fuel (execToolCallsStep resp acc)
      (rest.1, rest.2 + 1)

/-- The persona preamble (agent.py lines 24-53; first sentence stands for
the whole constant — only its `role` matters to the control flow). -/
def SYSTEM_PROMPT : String :=
  "You are a friendly and empathetic mortgage advisor helping expats in the UAE navigate the property market."

/-- Lines 159-164 of main.py: the stored history in Groq shape, with the
system persona prepended when absent. -/
def initialMessages (stored : List (String × String)) : List ChatMessage :=
  let ms := stored.map (fun rc => ChatMessage.plain rc.1 rc.2)
  match ms with
  | [] => [.plain "system" SYSTEM_PROMPT]
  | m :: _ =>
    if m.roleOf ≠ "system" then .plain "system" SYSTEM_PROMPT :: ms else ms

/-- Run the bounded loop (`max_iterations = 5`) from a stored history. -/
def runLoop (oracle : List ChatMessage → ModelResponse)
    (stored : List (String × String)) : StepAcc × Nat :=
  chatLoop oracle 5 ⟨initialMessages stored, "", []⟩

/-- Stand-in for the Python numeric format specifiers (`:,.2f` …); the
claims never look inside the rendered digits. -/
def fmtQ (q : ℚ) : String := toString q

/-- The `calculate_emi` template of `format_tool_results_response`
(main.py lines 62-74). -/
def emiPart (r : EmiResult) : String :=
  "For a loan of " ++ fmtQ r.loan_amount ++ " AED at 4.5% interest over "
    ++ toString r.tenure_years ++ " years: Monthly EMI: " ++ fmtQ r.emi
    ++ " AED; Total amount payable: " ++ fmtQ r.total_amount
    ++ " AED; Total interest: " ++ fmtQ r.total_interest ++ " AED"

/-- The `check_ltv` template (main.py lines 76-87). -/
def ltvPart (r : LtvResult) : String :=
  if r.is_valid then
    "Your LTV ratio is " ++ fmtQ r.ltv_ratio
      ++ "%, which meets UAE expat requirements (maximum 80%)."
  else
    "Your LTV ratio is " ++ fmtQ r.ltv_ratio
      ++ "%, which exceeds the 80% limit for expats. You will need a minimum down payment of "
      ++ fmtQ r.min_down_payment_required ++ " AED."

/-- The `calculate_upfront_costs` template (main.py lines 89-96). -/
def upfrontPart (r : UpfrontResult) : String :=
  "For a property worth " ++ fmtQ r.property_price
    ++ " AED, the upfront costs are approximately " ++ fmtQ r.total_upfront_costs
    ++ " AED (7% of property price: 4% transfer fee, 2% agency fee, 1% miscellaneous)."

/-- Render one reasoning bullet (stand-in for the f-strings of tools.py). -/
def renderReason : BvrReason → String
  | .stayShort t =>
    "Planning to stay less than 3 years. Transaction costs (" ++ fmtQ t
      ++ " AED) would outweigh benefits."
  | .stayLong =>
    "Planning to stay more than 5 years. Equity buildup and long-term savings favor buying."
  | .ownershipCheaper c r =>
    "Monthly ownership cost (" ++ fmtQ c ++ " AED) is less than rent (" ++ fmtQ r ++ " AED)."
  | .rentCheaper r c =>
    "Monthly rent (" ++ fmtQ r ++ " AED) is less than ownership cost (" ++ fmtQ c
      ++ " AED) for now."
  | .notAffordable e a =>
    "EMI (" ++ fmtQ e ++ " AED) is " ++ fmtQ a ++ "% of income. Recommended max is 30%."

/-- The `buy_vs_rent_analysis` template (main.py lines 98-107): the
recommendation part always, the bullets when `reasoning` is non-empty, the
EMI sentence when `emi` is truthy (non-zero). -/
def bvrParts (r : BvrResult) : List String :=
  ["Based on your situation, I recommend: **" ++ r.recommendation ++ "**"]
    ++ (if r.reasoning ≠ [] then
      [String.intercalate "\n" (r.reasoning.map (fun x => "- " ++ renderReason x))] else [])
    ++ (if r.emi ≠ 0 then
      ["Your estimated monthly EMI would be " ++ fmtQ r.emi ++ " AED."] else [])

/-- The parts one trace record contributes (main.py lines 55-107): a record
whose result dict contains `"error"` — a skipped invocation or a failed
execution — contributes nothing (`continue`). The result payloads are typed
per tool, so the `.get`-with-default reads of the source are total reads
here; a tag not matching its `tool_name` cannot be produced by the loop. -/
def partsFor (tr : TraceRecord) : List String :=
  match tr.result with
  | .skippedResult _ => []
  | .executed (.error _) => []
  | .executed (.ok out) =>
    if tr.tool_name = "calculate_emi" then
      match out with
      | .emi r => [emiPart r]
      | _ => []
    else if tr.tool_name = "check_ltv" then
      match out with
      | .ltv r => [ltvPart r]
      | _ => []
    else if tr.tool_name = "calculate_upfront_costs" then
      match out with
      | .upfront r => [upfrontPart r]
      | _ => []
    else if tr.tool_name = "buy_vs_rent_analysis" then
      match out with
      | .bvr r => bvrParts r
      | _ => []
    else []

/-- `format_tool_results_response` (main.py lines 40-109). -/
def format_tool_results_response (tool_results : List TraceRecord) : String :=
  let response_parts := (tool_results.map partsFor).flatten
  if response_parts ≠ [] then String.intercalate "\n\n" response_parts else ""

/-- Line 326 of main.py; the source literal contracts the first two words. -/
def basic_response : String :=
  "I have calculated the information you requested. Please let me know if you need any clarification."

/-- The finalization of main.py lines 301-328, as the text appended to the
session transcript (`none`: nothing is appended): the accumulated streamed
text if non-empty; else, when tool results exist, the synthesized summary if
it is non-empty and the generic notice otherwise; else nothing. -/
def finalResponseText (acc : StepAcc) : Option String :=
  if acc.full_response ≠ "" then some acc.full_response
  else if acc.tool_results_list ≠ [] then
    (if format_tool_results_response acc.tool_results_list ≠ "" then
      some (format_tool_results_response acc.tool_results_list)
    else some basic_response)
  else none

/-- The outcome of one `stream_chat_response` call: the session store after
the call and the number of LLM round trips made. -/
structure ChatOutcome where
  state : ConversationState
  llm_calls : Nat
deriving Repr, DecidableEq

/-- `stream_chat_response` (main.py lines 146-341): append the user turn
(an unknown session id raises into the catch-all, which emits an error
event and leaves the store untouched), run the bounded loop, and append the
finalized assistant reply when there is one. The second `add_message`
cannot fail (the id was just used); its error branch mirrors the catch-all. -/
def stream_chat_response (oracle : List ChatMessage → ModelResponse)
    (st : ConversationState) (session_id user_message : String) : ChatOutcome :=
  match add_message st session_id "user" user_message with
  | .error _ => { state := st, llm_calls := 0 }
  | .ok st1 =>
    let r := runLoop oracle (get_history st1 session_id)
    match finalResponseText r.1 with
    | none => { state := st1, llm_calls := r.2 }
    | some t =>
      match add_message st1 session_id "assistant" t with
      | .ok st2 => { state := st2, llm_calls := r.2 }
      | .error _ => { state := st1, llm_calls := r.2 }

/-- The EMI formula exactly as the specification states it (spec §4.1):
`i = r/1200`, `m = 12n`, `EMI = P/m` when `i = 0` and
`P·i·(1+i)^m / ((1+i)^m − 1)` otherwise. Spec-side definition, to be
compared with `calculate_emi`. -/
def emiSpec (P r : ℚ) (n : ℤ) : ℚ :=
  let i : ℚ := r / 1200
  let m : ℤ := 12 * n
  if i = 0 then P / (m : ℚ)
  else P * i * (1 + i) ^ m.toNat / ((1 + i) ^ m.toNat - 1)

/-- Test vector for the affordability override: rent 4000, price 1,200,000,
stay 2 years, income 6000, down payment 300,000, rate 0. The expected
payload, computed by hand from the source: LTV 75 (valid), EMI
900000/300 = 3000, ratio 50% > 30% — RENT with the affordability reason
appended after the short-stay reason. -/
def bvrOverrideExpected : BvrResult :=
  { recommendation := "RENT"
    reasoning := [.stayShort 84000, .notAffordable 3000 50]
    monthly_rent := 4000
    monthly_ownership_cost := 100
    monthly_interest := 0
    maintenance_estimate := 100
    emi := 3000
    affordability_ratio := 50
    is_affordable := false
    stay_years := 2
    upfront_costs := 84000
    ltv_details :=
      { ltv_ratio := 75, loan_amount := 900000, max_loanable := 960000,
        min_down_payment_required := 240000, is_valid := true,
        property_price := 1200000, down_payment := 300000, message := .valid }
    emi_details :=
      { emi := 3000, total_amount := 900000, total_interest := 0,
        loan_amount := 900000, interest_rate := 0, tenure_years := 25,
        tenure_months := 300 } }

/-- Test vector for the transcript-ordering check: one valid `check_ltv`
invocation with correlation id `call_1`. -/
def respC1 : ModelResponse :=
  ⟨"", [⟨"call_1", "check_ltv", "raw_args_1",
    [("property_price", PyVal.num 1000000), ("down_payment", PyVal.num 300000)]⟩]⟩

/-- A model that answers with no text and no tool calls. -/
def oracleSilent : List ChatMessage → ModelResponse := fun _ => ⟨"", []⟩

/-- A model that answers with final text and no tool calls. -/
def oracleHello : List ChatMessage → ModelResponse := fun _ => ⟨"Hello there.", []⟩

/-- Rounding to two decimals moves a rational by at most 1/200. -/
theorem abs_round2_sub (x : ℚ) : |round2 x - x| ≤ 1 / 200 := by
  have h := abs_sub_round ((100 : ℚ) * x)
  unfold round2
  have hrw : ((round ((100 : ℚ) * x)) : ℚ) / 100 - x =
      -((100 * x - (round ((100 : ℚ) * x) : ℚ)) / 100) := by
    ring
  rw [hrw, abs_neg, abs_div]
  have h100 : |(100 : ℚ)| = 100 := by norm_num
  rw [h100, div_le_iff₀ (by norm_num : (0 : ℚ) < 100)]
  linarith

/-- Rounding before or after subtracting an exact constant differs by at
most 1/100 — the rounding tolerance of the EMI claim. -/
theorem round2_sub_tol (y P : ℚ) : |round2 (y - P) - (round2 y - P)| ≤ 1 / 100 := by
  have h1 := abs_round2_sub (y - P)
  have h2 := abs_round2_sub y
  have hrw : round2 (y - P) - (round2 y - P) =
      (round2 (y - P) - (y - P)) - (round2 y - y) := by ring
  calc |round2 (y - P) - (round2 y - P)|
      = |(round2 (y - P) - (y - P)) - (round2 y - y)| := by rw [hrw]
    _ ≤ |round2 (y - P) - (y - P)| + |round2 y - y| := abs_sub _ _
    _ ≤ 1 / 200 + 1 / 200 := add_le_add h1 h2
    _ = 1 / 100 := by norm_num

/-- C4: for every loan amount `P > 0`, annual rate `r ≥ 0` and tenure
`1 ≤ n ≤ 25`, `calculate_emi` succeeds; with `i = r/1200` and `m = 12n` the
`emi` field is the spec formula (`P/m` when `i = 0`, else
`P·i·(1+i)^m / ((1+i)^m − 1)`) rounded to 2 decimals, `total_amount` is
`round(EMI·12n, 2)`, and `total_interest` equals `total_amount − P` within
the rounding tolerance of 1/100. -/
theorem calculate_emi_meets_spec (P r : ℚ) (n : ℤ)
    (hP : 0 < P) (hr : 0 ≤ r) (hn1 : 1 ≤ n) (hn2 : n ≤ 25) :
    ∃ res, calculate_emi P r n = Except.ok res ∧
      res.emi = round2 (emiSpec P r n) ∧
      res.total_amount = round2 (emiSpec P r n * ((12 * n : ℤ) : ℚ)) ∧
      |res.total_interest - (res.total_amount - P)| ≤ 1 / 100 := by
  have hg1 : ¬ P ≤ 0 := not_le.mpr hP
  have hg2 : ¬ (n ≤ 0 ∨ 25 < n) := by push_neg; omega
  have hg3 : ¬ r < 0 := not_lt.mpr hr
  have hmr : r / 100 / 12 = r / 1200 := by rw [div_div]; norm_num
  have hnm : n * 12 = 12 * n := by ring
  have heq : calculate_emi P r n = Except.ok
      { emi := round2 (emiSpec P r n)
        total_amount := round2 (emiSpec P r n * ((12 * n : ℤ) : ℚ))
        total_interest := round2 (emiSpec P r n * ((12 * n : ℤ) : ℚ) - P)
        loan_amount := P
        interest_rate := r
        tenure_years := n
        tenure_months := n * 12 } := by
    unfold calculate_emi emiSpec
    rw [if_neg hg1, if_neg hg2, if_neg hg3]
    simp only [hmr, hnm]
  refine ⟨_, heq, rfl, rfl, ?_⟩
  exact round2_sub_tol _ _

/-- Witness for C4 at `P = 1000`, `r = 0`, `n = 10`. -/
theorem calculate_emi_meets_spec_witness :
    (0 : ℚ) < 1000 ∧ (0 : ℚ) ≤ 0 ∧ (1 : ℤ) ≤ 10 ∧ (10 : ℤ) ≤ 25 ∧
    (∃ res, calculate_emi 1000 0 10 = Except.ok res ∧
      res.emi = round2 (emiSpec 1000 0 10) ∧
      res.total_amount = round2 (emiSpec 1000 0 10 * ((12 * 10 : ℤ) : ℚ)) ∧
      |res.total_interest - (res.total_amount - 1000)| ≤ 1 / 100) :=
  ⟨by norm_num, le_refl 0, by norm_num, by norm_num,
    calculate_emi_meets_spec 1000 0 10 (by norm_num) (le_refl 0)
      (by norm_num) (by norm_num)⟩

/-- C5 (amended): for `V > 0`, `0 ≤ D < V`, `check_ltv` succeeds with
`ltv_ratio = round((V−D)/V·100, 2)`, validity decided on the exact
(unrounded) ratio against 80, and `max_loanable`/`min_down_payment_required`
equal to `0.8·V` and `0.2·V` rounded to 2 decimals. -/
theorem check_ltv_spec (V D : ℚ) (hV : 0 < V) (hD0 : 0 ≤ D) (hDV : D < V) :
    ∃ res, check_ltv V D = Except.ok res ∧
      res.ltv_ratio = round2 ((V - D) / V * 100) ∧
      (res.is_valid = true ↔ (V - D) / V * 100 ≤ 80) ∧
      res.max_loanable = round2 ((0.8 : ℚ) * V) ∧
      res.min_down_payment_required = round2 ((0.2 : ℚ) * V) := by
  have hg1 : ¬ V ≤ 0 := not_le.mpr hV
  have hg2 : ¬ D < 0 := not_lt.mpr hD0
  have hg3 : ¬ V ≤ D := not_le.mpr hDV
  have h8 : V * ((80 : ℚ) / 100) = (0.8 : ℚ) * V := by ring_nf
  have h2 : V - (0.8 : ℚ) * V = (0.2 : ℚ) * V := by ring_nf
  have heq : check_ltv V D = Except.ok
      { ltv_ratio := round2 ((V - D) / V * 100)
        loan_amount := round2 (V - D)
        max_loanable := round2 ((0.8 : ℚ) * V)
        min_down_payment_required := round2 ((0.2 : ℚ) * V)
        is_valid := decide ((V - D) / V * 100 ≤ 80)
        property_price := V
        down_payment := D
        message := if decide ((V - D) / V * 100 ≤ 80) then .valid
          else .exceedsLimit (V - (0.8 : ℚ) * V) } := by
    unfold check_ltv
    rw [if_neg hg1, if_neg hg2, if_neg hg3]
    simp only [h8, h2]
  refine ⟨_, heq, rfl, ?_, rfl, rfl⟩
  exact decide_eq_true_iff

/-- Witness for C5 at `V = 100`, `D = 20`. -/
theorem check_ltv_spec_witness :
    (0 : ℚ) < 100 ∧ (0 : ℚ) ≤ 20 ∧ (20 : ℚ) < 100 ∧
    (∃ res, check_ltv 100 20 = Except.ok res ∧
      res.ltv_ratio = round2 (((100 : ℚ) - 20) / 100 * 100) ∧
      (res.is_valid = true ↔ ((100 : ℚ) - 20) / 100 * 100 ≤ 80) ∧
      res.max_loanable = round2 ((0.8 : ℚ) * 100) ∧
      res.min_down_payment_required = round2 ((0.2 : ℚ) * 100)) :=
  ⟨by norm_num, by norm_num, by norm_num,
    check_ltv_spec 100 20 (by norm_num) (by norm_num) (by norm_num)⟩

/-- Counterexample to C5 as stated: at `V = 1/100` (one fils), `D = 0`, the
`max_loanable` field is `round(0.008, 2) = 0.01`, not the exact
`0.8·V = 0.008` the claim asserts. -/
theorem check_ltv_max_loanable_not_exact :
    (check_ltv (1 / 100) 0).map LtvResult.max_loanable = Except.ok (1 / 100) ∧
    ¬ ((1 : ℚ) / 100 = (0.8 : ℚ) * (1 / 100)) := by
  constructor
  · norm_num [check_ltv, round2, round_eq, Except.map]
  · norm_num

/-- C6: whenever `buy_vs_rent_analysis` returns a success payload whose EMI
exceeds 30% of income, the recommendation is RENT — regardless of stay
duration and of the first-pass decision rule — and the affordability reason
is appended at the end of the reasoning list. -/
theorem bvr_affordability_override (R V : ℚ) (y : ℤ) (I D r : ℚ) (res : BvrResult)
    (h : buy_vs_rent_analysis R V y I D r = Except.ok res)
    (hratio : 30 < res.emi / I * 100) :
    res.recommendation = "RENT" ∧
      ∃ pre, res.reasoning = pre ++ [BvrReason.notAffordable res.emi (res.emi / I * 100)] := by
  unfold buy_vs_rent_analysis at h
  by_cases h1 : R ≤ 0
  · rw [if_pos h1] at h; exact absurd h (by simp)
  rw [if_neg h1] at h
  by_cases h2 : V ≤ 0
  · rw [if_pos h2] at h; exact absurd h (by simp)
  rw [if_neg h2] at h
  by_cases h3 : y ≤ 0
  · rw [if_pos h3] at h; exact absurd h (by simp)
  rw [if_neg h3] at h
  by_cases h4 : I ≤ 0
  · rw [if_pos h4] at h; exact absurd h (by simp)
  rw [if_neg h4] at h
  simp only at h
  by_cases h5 : ltvIsValid (check_ltv V D) = false
  · rw [if_pos h5] at h; exact absurd h (by simp)
  rw [if_neg h5] at h
  rcases hlc : check_ltv V D with e | lc
  · rw [hlc] at h; exact absurd h (by simp)
  rw [hlc] at h
  rcases hemi : calculate_emi (V - D) r 25 with e | er
  · rw [hemi] at h; simp only at h; exact absurd h (by simp)
  rw [hemi] at h
  simp only at h
  rw [Except.ok.injEq] at h
  subst h
  simp only at hratio ⊢
  have hd : decide (er.emi / I * 100 ≤ 30) = false :=
    decide_eq_false (not_le.mpr hratio)
  rw [if_pos hd]
  exact ⟨rfl, ⟨_, rfl⟩⟩

/-- Witness for C6: the `bvrOverrideExpected` scenario, where the first-pass
rule already says RENT for other reasons and the 50% affordability ratio
forces RENT with the reason appended. -/
theorem bvr_affordability_override_witness :
    buy_vs_rent_analysis 4000 1200000 2 6000 300000 0 =
      Except.ok bvrOverrideExpected ∧
    30 < bvrOverrideExpected.emi / 6000 * 100 ∧
    bvrOverrideExpected.recommendation = "RENT" := by
  have hq : (30 : ℚ) < bvrOverrideExpected.emi / 6000 * 100 := by
    norm_num [bvrOverrideExpected]
  have h : buy_vs_rent_analysis 4000 1200000 2 6000 300000 0 =
      Except.ok bvrOverrideExpected := by
    norm_num [buy_vs_rent_analysis, check_ltv, calculate_emi,
      calculate_upfront_costs, ltvIsValid, round2, round_eq, bvrOverrideExpected]
  exact ⟨h, hq,
    (bvr_affordability_override 4000 1200000 2 6000 300000 0
      bvrOverrideExpected h hq).1⟩

/-- C7: `buy_vs_rent_analysis` returns an error payload (never a
recommendation) whenever any of rent, price, stay duration, income or down
payment is non-positive. The first four are rejected by the explicit
guards; a non-positive down payment is rejected through the LTV check
(negative: `check_ltv` errors; zero: LTV is 100% > 80%). -/
theorem bvr_rejects_nonpositive (R V : ℚ) (y : ℤ) (I D r : ℚ)
    (h : R ≤ 0 ∨ V ≤ 0 ∨ y ≤ 0 ∨ I ≤ 0 ∨ D ≤ 0) :
    ∃ e, buy_vs_rent_analysis R V y I D r = Except.error e := by
  unfold buy_vs_rent_analysis
  by_cases h1 : R ≤ 0
  · rw [if_pos h1]; exact ⟨_, rfl⟩
  rw [if_neg h1]
  by_cases h2 : V ≤ 0
  · rw [if_pos h2]; exact ⟨_, rfl⟩
  rw [if_neg h2]
  by_cases h3 : y ≤ 0
  · rw [if_pos h3]; exact ⟨_, rfl⟩
  rw [if_neg h3]
  by_cases h4 : I ≤ 0
  · rw [if_pos h4]; exact ⟨_, rfl⟩
  rw [if_neg h4]
  have hD : D ≤ 0 := by tauto
  have hV : 0 < V := not_le.mp h2
  have hfalse : ltvIsValid (check_ltv V D) = false := by
    rcases lt_or_eq_of_le hD with hDneg | hD0
    · unfold check_ltv ltvIsValid
      rw [if_neg (not_le.mpr hV), if_pos hDneg]
    · rw [hD0]
      unfold check_ltv ltvIsValid
      rw [if_neg (not_le.mpr hV), if_neg (lt_irrefl 0),
        if_neg (not_le.mpr hV)]
      simp only
      have hratio : (V - 0) / V * 100 = 100 := by
        field_simp
      rw [hratio]
      norm_num
  simp only
  rw [if_pos hfalse]
  exact ⟨_, rfl⟩

/-- Witness for C7: a zero down payment with all other inputs positive. -/
theorem bvr_rejects_nonpositive_witness :
    ((0 : ℚ) ≤ 0 ∨ (500000 : ℚ) ≤ 0 ∨ (3 : ℤ) ≤ 0 ∨ (8000 : ℚ) ≤ 0 ∨ (0 : ℚ) ≤ 0) ∧
    ∃ e, buy_vs_rent_analysis 1000 500000 3 8000 0 (9 / 2) = Except.error e :=
  ⟨Or.inr (Or.inr (Or.inr (Or.inr (le_refl 0)))),
    bvr_rejects_nonpositive 1000 500000 3 8000 0 (9 / 2)
      (Or.inr (Or.inr (Or.inr (Or.inr (le_refl 0)))))⟩

/-- C8: the validator (a) treats a tool name outside its registry as valid
(rejection is deferred to the dispatcher); (b) on any absent required field
returns invalid with every absent field named individually; (c) with all
required fields present, returns invalid for each positive-flagged argument
whose value is not numeric or not strictly positive, echoing the offending
value. -/
theorem validate_tool_arguments_spec (tool : String) (args : ArgMap) :
    (required_params tool = none → validate_tool_arguments tool args = .valid) ∧
    (∀ req p, required_params tool = some req → p ∈ req → hasKey args p = false →
      ∃ missing, validate_tool_arguments tool args = .missingParams missing ∧
        p ∈ missing ∧ ∀ q ∈ req, hasKey args q = false → q ∈ missing) ∧
    (∀ req p v, required_params tool = some req → (∀ q ∈ req, hasKey args q = true) →
      p ∈ positive_params tool → lookupArg args p = some v →
      (v.isNumeric && v.isPositive) = false →
      ∃ invalid, validate_tool_arguments tool args = .invalidParams invalid ∧
        (p, v) ∈ invalid) := by
  refine ⟨?_, ?_, ?_⟩
  · intro hnone
    unfold validate_tool_arguments
    rw [hnone]
  · intro req p hreq hp habs
    unfold validate_tool_arguments
    rw [hreq]
    dsimp only
    have hmem : p ∈ req.filter (fun q => hasKey args q = false) :=
      List.mem_filter.mpr ⟨hp, by simp [habs]⟩
    rw [if_pos (List.ne_nil_of_mem hmem)]
    exact ⟨_, rfl, hmem, fun q hq habsq =>
      List.mem_filter.mpr ⟨hq, by simp [habsq]⟩⟩
  · intro req p v hreq hall hp hlk hbad
    unfold validate_tool_arguments
    rw [hreq]
    dsimp only
    have hnil : req.filter (fun q => hasKey args q = false) = [] := by
      rw [List.filter_eq_nil_iff]
      intro q hq
      simp [hall q hq]
    rw [hnil, if_neg (by simp)]
    have hmem : (p, v) ∈ (positive_params tool).filterMap (fun q =>
        match lookupArg args q with
        | some w => if (w.isNumeric && w.isPositive) = false then some (q, w) else none
        | none => none) := by
      rw [List.mem_filterMap]
      exact ⟨p, hp, by rw [hlk]; simp [hbad]⟩
    rw [if_pos (List.ne_nil_of_mem hmem)]
    exact ⟨_, rfl, hmem⟩

/-- Witness for C8: an unregistered tool name is valid; `check_ltv` with
only `down_payment` reports the missing `property_price`; `check_ltv` with
`property_price = 0` reports the offending value. -/
theorem validate_tool_arguments_spec_witness :
    (required_params "extract_contact" = none ∧
      validate_tool_arguments "extract_contact" [] = .valid) ∧
    (required_params "check_ltv" = some ["property_price", "down_payment"] ∧
      "property_price" ∈ ["property_price", "down_payment"] ∧
      hasKey [("down_payment", PyVal.num 50)] "property_price" = false ∧
      ∃ missing,
        validate_tool_arguments "check_ltv" [("down_payment", PyVal.num 50)] =
          .missingParams missing ∧ "property_price" ∈ missing) ∧
    (∃ invalid,
      validate_tool_arguments "check_ltv"
          [("property_price", PyVal.num 0), ("down_payment", PyVal.num 100)] =
        .invalidParams invalid ∧ ("property_price", PyVal.num 0) ∈ invalid) := by
  refine ⟨⟨by decide, ?_⟩, ⟨by decide, by decide, by decide, ?_⟩, ?_⟩
  · exact (validate_tool_arguments_spec "extract_contact" []).1 (by decide)
  · obtain ⟨missing, hm1, hm2, _⟩ :=
      (validate_tool_arguments_spec "check_ltv" [("down_payment", PyVal.num 50)]).2.1
        ["property_price", "down_payment"] "property_price"
        (by decide) (by decide) (by decide)
    exact ⟨missing, hm1, hm2⟩
  · exact (validate_tool_arguments_spec "check_ltv"
        [("property_price", PyVal.num 0), ("down_payment", PyVal.num 100)]).2.2
        ["property_price", "down_payment"] "property_price" (PyVal.num 0)
        (by decide) (by decide) (by decide) (by decide) (by decide)

/-- C9: `execute_tool` is total (by its type — every branch yields a
`ToolResult`) and never propagates a fault: an unknown name yields the
unknown-tool failure; a validator rejection yields a failure carrying the
validator outcome without the calculator being invoked; a raised exception
during the call is caught and converted to an execution failure carrying
the underlying message; a completed call returns its payload unchanged. -/
theorem execute_tool_spec (tool : String) (args : ArgMap) :
    (TOOL_NAMES.contains tool = false →
      execute_tool tool args = Except.error (.unknownTool tool)) ∧
    (∀ outcome, TOOL_NAMES.contains tool = true →
      validate_tool_arguments tool args = outcome → outcome ≠ .valid →
      execute_tool tool args = Except.error (.validationFailed outcome)) ∧
    (∀ e, TOOL_NAMES.contains tool = true →
      validate_tool_arguments tool args = .valid →
      callTool tool args = Except.error e →
      execute_tool tool args = Except.error (.execFailed e)) ∧
    (∀ r, TOOL_NAMES.contains tool = true →
      validate_tool_arguments tool args = .valid →
      callTool tool args = Except.ok r →
      execute_tool tool args = r) := by
  refine ⟨?_, ?_, ?_, ?_⟩
  · intro hu
    unfold execute_tool
    rw [if_pos hu]
  · intro outcome hc hval hne
    unfold execute_tool
    rw [if_neg (by rw [hc]; simp), hval]
    cases outcome with
    | valid => exact absurd rfl hne
    | missingParams m => rfl
    | invalidParams i => rfl
  · intro e hc hval hcall
    unfold execute_tool
    rw [if_neg (by rw [hc]; simp), hval]
    dsimp only
    rw [hcall]
  · intro rr hc hval hcall
    unfold execute_tool
    rw [if_neg (by rw [hc]; simp), hval]
    dsimp only
    rw [hcall]

/-- Witness for C9: an unknown tool; a validation failure; and a call with
`interest_rate` absent, which passes validation (it is not required) but
makes the Python call itself raise — caught and converted. -/
theorem execute_tool_spec_witness :
    (TOOL_NAMES.contains "extract_contact" = false ∧
      execute_tool "extract_contact" [] =
        Except.error (.unknownTool "extract_contact")) ∧
    (validate_tool_arguments "check_ltv" [] =
        .missingParams ["property_price", "down_payment"] ∧
      execute_tool "check_ltv" [] = Except.error
        (.validationFailed (.missingParams ["property_price", "down_payment"]))) ∧
    (callTool "calculate_emi"
        [("loan_amount", PyVal.num 100000), ("tenure_years", PyVal.num 10)] =
        Except.error "TypeError: missing required argument" ∧
      execute_tool "calculate_emi"
          [("loan_amount", PyVal.num 100000), ("tenure_years", PyVal.num 10)] =
        Except.error (.execFailed "TypeError: missing required argument")) := by
  refine ⟨⟨by decide, ?_⟩, ⟨by decide, ?_⟩, ⟨by decide, ?_⟩⟩
  · exact (execute_tool_spec "extract_contact" []).1 (by decide)
  · exact (execute_tool_spec "check_ltv" []).2.1
      (.missingParams ["property_price", "down_payment"])
      (by decide) (by decide) (by decide)
  · exact (execute_tool_spec "calculate_emi"
        [("loan_amount", PyVal.num 100000), ("tenure_years", PyVal.num 10)]).2.2.1
      "TypeError: missing required argument" (by decide) (by decide) (by decide)

/-- In a list with some entry keyed `k`, replacing every entry keyed `k` by
`(k, v)` makes the lookup find `(k, v)`. -/
theorem find?_replaceAll (l : List (String × SessionData)) (k : String)
    (v : SessionData) (hex : l.any (fun kv => kv.1 = k) = true) :
    (l.map (fun kv => if kv.1 = k then (k, v) else kv)).find?
      (fun kv => kv.1 = k) = some (k, v) := by
  induction l with
  | nil => simp at hex
  | cons hd tl ih =>
    by_cases hc : hd.1 = k
    · simp [List.find?, hc]
    · have htl : tl.any (fun kv => kv.1 = k) = true := by
        simpa [hc] using hex
      simpa [List.find?, hc] using ih htl

/-- Dict assignment of a new key makes the lookup find the new binding. -/
theorem find?_dictInsert (l : List (String × SessionData)) (k : String)
    (v : SessionData) (hnew : l.any (fun kv => kv.1 = k) = false) :
    (dictInsert l k v).find? (fun kv => kv.1 = k) = some (k, v) := by
  unfold dictInsert
  rw [if_neg (by rw [hnew]; simp)]
  induction l with
  | nil => simp [List.find?]
  | cons hd tl ih =>
    have hc : (hd.1 = k) = False := by
      simp only [List.any_cons, Bool.or_eq_false_iff] at hnew
      simpa using hnew.1
    have htl : tl.any (fun kv => kv.1 = k) = false := by
      simp only [List.any_cons, Bool.or_eq_false_iff] at hnew
      exact hnew.2
    simpa [List.find?, hc] using ih htl

/-- A freshly (re)created session reads as the empty transcript. -/
theorem get_history_create (st : ConversationState) (sid : String) :
    get_history (create_session st sid) sid = [] := by
  unfold get_history create_session
  cases hex : st.conversations.any (fun kv => kv.1 = sid) with
  | true =>
    unfold dictInsert
    rw [if_pos hex, find?_replaceAll st.conversations sid _ hex]
    rfl
  | false =>
    rw [find?_dictInsert st.conversations sid _ hex]
    rfl

/-- Appending to an existing session succeeds. -/
theorem add_message_ok_of_exists (st : ConversationState) (sid role content : String)
    (h : session_exists st sid = true) :
    ∃ st1, add_message st sid role content = Except.ok st1 := by
  unfold add_message
  rw [if_neg (by rw [h]; simp)]
  exact ⟨_, rfl⟩

/-- Appending to an unknown session raises the session-not-found error. -/
theorem add_message_error_of_not_exists (st : ConversationState)
    (sid role content : String) (h : session_exists st sid = false) :
    add_message st sid role content =
      Except.error ("Session " ++ sid ++ " not found") := by
  unfold add_message
  rw [if_pos h]

/-- Reading an unknown session yields the empty transcript. -/
theorem get_history_of_not_exists (st : ConversationState) (sid : String)
    (h : session_exists st sid = false) :
    get_history st sid = [] := by
  unfold get_history
  unfold session_exists at h
  have hnone : st.conversations.find? (fun kv => kv.1 = sid) = none := by
    rw [List.find?_eq_none]
    intro x hx hpx
    rw [List.any_eq_false] at h
    exact absurd hpx (by simpa using h x hx)
  rw [hnone]

/-- Rewriting the value at key `k` commutes with the keyed lookup. -/
theorem find?_mapVal (l : List (String × SessionData)) (k : String)
    (g : SessionData → SessionData) :
    (l.map (fun kv => if kv.1 = k then (kv.1, g kv.2) else kv)).find?
        (fun kv => kv.1 = k) =
      (l.find? (fun kv => kv.1 = k)).map (fun kv => (kv.1, g kv.2)) := by
  induction l with
  | nil => rfl
  | cons hd tl ih =>
    by_cases hc : hd.1 = k
    · simp [List.find?, hc]
    · simp [List.find?, hc, ih]

/-- A successful `add_message` appends exactly one `(role, content)` pair to
that session transcript. -/
theorem get_history_add_message (st st1 : ConversationState)
    (sid role content : String)
    (h : add_message st sid role content = Except.ok st1) :
    get_history st1 sid = get_history st sid ++ [(role, content)] := by
  unfold add_message at h
  by_cases hex : session_exists st sid = false
  · rw [if_pos hex] at h; exact absurd h (by simp)
  · rw [if_neg hex] at h
    rw [Except.ok.injEq] at h
    subst h
    have hany : st.conversations.any (fun kv => kv.1 = sid) = true := by
      unfold session_exists at hex
      simpa using hex
    unfold get_history
    dsimp only
    have hmap := find?_mapVal st.conversations sid
      (fun sd => { messages := sd.messages ++ [{ role := role, content := content }] })
    rw [hmap]
    cases hkv : st.conversations.find? (fun kv => kv.1 = sid) with
    | none =>
      rw [List.any_eq_true] at hany
      obtain ⟨kv0, hkv0, hp0⟩ := hany
      rw [List.find?_eq_none] at hkv
      exact absurd hp0 (hkv kv0 hkv0)
    | some kv =>
      simp [List.map_append]

/-- A successful `add_message` changes no session key. -/
theorem session_exists_add_message (st st1 : ConversationState)
    (sid role content sid2 : String)
    (h : add_message st sid role content = Except.ok st1) :
    session_exists st1 sid2 = session_exists st sid2 := by
  unfold add_message at h
  by_cases hex : session_exists st sid = false
  · rw [if_pos hex] at h; exact absurd h (by simp)
  · rw [if_neg hex] at h
    rw [Except.ok.injEq] at h
    subst h
    unfold session_exists
    dsimp only
    induction st.conversations with
    | nil => rfl
    | cons hd tl ih =>
      by_cases hc : hd.1 = sid
      · simp [hc, ih]
      · simp [hc, ih]

/-- A created session exists. -/
theorem session_exists_create (st : ConversationState) (sid : String) :
    session_exists (create_session st sid) sid = true := by
  cases hex : st.conversations.any (fun kv => kv.1 = sid) with
  | true =>
    unfold session_exists create_session dictInsert
    rw [if_pos hex]
    have hf := find?_replaceAll st.conversations sid ⟨[]⟩ hex
    rw [List.any_eq_true]
    exact ⟨_, List.mem_of_find?_eq_some hf, by simp⟩
  | false =>
    unfold session_exists create_session dictInsert
    rw [if_neg (by rw [hex]; simp)]
    rw [List.any_eq_true]
    exact ⟨(sid, ⟨[]⟩), by simp, by simp⟩

/-- C10: for a session id not in the store, `get_history` returns `[]`
without failing while `add_message` on the same id raises the
session-not-found error, so reading an invalid session is indistinguishable
from reading a freshly created empty session. -/
theorem unknown_session_read_empty_write_raises (st : ConversationState)
    (sid : String) (h : session_exists st sid = false) :
    get_history st sid = [] ∧
    (∀ role content, add_message st sid role content =
      Except.error ("Session " ++ sid ++ " not found")) ∧
    (∀ st2 fresh, get_history (create_session st2 fresh) fresh = []) :=
  ⟨get_history_of_not_exists st sid h,
    fun role content => add_message_error_of_not_exists st sid role content h,
    fun st2 fresh => get_history_create st2 fresh⟩

/-- Witness for C10 on the empty store and session id `s1`. -/
theorem unknown_session_read_empty_write_raises_witness :
    session_exists { conversations := [] } "s1" = false ∧
    get_history { conversations := [] } "s1" = [] ∧
    add_message { conversations := [] } "s1" "user" "hi" =
      Except.error ("Session " ++ "s1" ++ " not found") ∧
    get_history (create_session { conversations := [] } "s1") "s1" = [] := by
  have h : session_exists { conversations := [] } "s1" = false := by decide
  obtain ⟨h1, h2, h3⟩ := unknown_session_read_empty_write_raises
    { conversations := [] } "s1" h
  exact ⟨h, h1, h2 "user" "hi", h3 { conversations := [] } "s1"⟩

/-- The loop makes at most `fuel` LLM round trips. -/
theorem chatLoop_calls_le (oracle : List ChatMessage → ModelResponse)
    (fuel : Nat) (acc : StepAcc) : (chatLoop oracle fuel acc).2 ≤ fuel := by
  induction fuel generalizing acc with
  | zero => simp [chatLoop]
  | succ n ih =>
    unfold chatLoop
    dsimp only
    split
    · simp
    · simpa using Nat.succ_le_succ (ih (execToolCallsStep (oracle acc.messages) acc))

/-- C2: a single `stream_chat_response` call (one user message) makes at
most 5 LLM round trips, for every model behavior, store and input; the
loop is structurally fuel-bounded, so on exhaustion it falls through to
finalization with whatever text and tool history was accumulated. -/
theorem stream_chat_llm_calls_le_five (oracle : List ChatMessage → ModelResponse)
    (st : ConversationState) (sid umsg : String) :
    (stream_chat_response oracle st sid umsg).llm_calls ≤ 5 := by
  unfold stream_chat_response
  cases hadd : add_message st sid "user" umsg with
  | error e => simp
  | ok st1 =>
    dsimp only
    have hb : (runLoop oracle (get_history st1 sid)).2 ≤ 5 :=
      chatLoop_calls_le oracle 5 _
    cases hfin : finalResponseText (runLoop oracle (get_history st1 sid)).1 with
    | none => simpa using hb
    | some t =>
      cases hadd2 : add_message st1 sid "assistant" t with
      | ok st2 => dsimp only; rw [hadd2]; simpa using hb
      | error e => dsimp only; rw [hadd2]; simpa using hb

/-- C1 at the failing input (`respC1`, one valid `check_ltv` invocation,
empty transcript): the tool-executing pass appends the paired tool-result
turn BEFORE the assistant turn that carries the invocation — the assistant
turn is the last transcript entry, so the result turn is not ordered after
it as the claim requires (each invocation is still recorded exactly once in
the assistant turn, with exactly one paired result turn). -/
theorem tool_result_turn_precedes_assistant_turn :
    ((execToolCallsStep respC1 ⟨[], "", []⟩).messages.map ChatMessage.roleOf)
        = ["tool", "assistant"] ∧
    (execToolCallsStep respC1 ⟨[], "", []⟩).messages.getLast? =
      some (ChatMessage.assistantToolCalls ""
        [⟨"call_1", "check_ltv", "raw_args_1"⟩]) :=
  ⟨by decide, by decide⟩

/-- Counterexample to C3 as stated: when the model supplies neither text
nor tool calls, no assistant turn is appended at all — the session ends
with only the user turn, with no generic fallback notice. -/
theorem silent_model_appends_no_assistant_turn :
    get_history (stream_chat_response oracleSilent
        (create_session { conversations := [] } "s1") "s1" "hi").state "s1" =
      [("user", "hi")] := by decide

/-- C3 (amended): on a valid session, the user turn is appended, then at
most one finalized assistant turn, chosen by `finalResponseText`: the
accumulated streamed text when non-empty; otherwise, when tool results
exist, the synthesized summary when it is non-empty and the generic notice
when it is empty; otherwise nothing is appended. -/
theorem finalized_reply_appended_once (oracle : List ChatMessage → ModelResponse)
    (st : ConversationState) (sid umsg : String)
    (h : session_exists st sid = true) :
    ∃ st1, add_message st sid "user" umsg = Except.ok st1 ∧
      (∀ t, finalResponseText (runLoop oracle (get_history st1 sid)).1 = some t →
        get_history (stream_chat_response oracle st sid umsg).state sid =
          get_history st sid ++ [("user", umsg), ("assistant", t)]) ∧
      (finalResponseText (runLoop oracle (get_history st1 sid)).1 = none →
        get_history (stream_chat_response oracle st sid umsg).state sid =
          get_history st sid ++ [("user", umsg)]) ∧
      (∀ acc : StepAcc,
        (acc.full_response ≠ "" → finalResponseText acc = some acc.full_response) ∧
        (acc.full_response = "" → acc.tool_results_list ≠ [] →
          format_tool_results_response acc.tool_results_list ≠ "" →
          finalResponseText acc =
            some (format_tool_results_response acc.tool_results_list)) ∧
        (acc.full_response = "" → acc.tool_results_list ≠ [] →
          format_tool_results_response acc.tool_results_list = "" →
          finalResponseText acc = some basic_response) ∧
        (acc.full_response = "" → acc.tool_results_list = [] →
          finalResponseText acc = none)) := by
  obtain ⟨st1, hadd⟩ := add_message_ok_of_exists st sid "user" umsg h
  refine ⟨st1, hadd, ?_, ?_, ?_⟩
  · intro t hfin
    have hex1 : session_exists st1 sid = true := by
      rw [session_exists_add_message st st1 sid "user" umsg sid hadd]; exact h
    obtain ⟨st2, hadd2⟩ := add_message_ok_of_exists st1 sid "assistant" t hex1
    have hstate : (stream_chat_response oracle st sid umsg).state = st2 := by
      unfold stream_chat_response
      rw [hadd]
      dsimp only
      rw [hfin]
      dsimp only
      rw [hadd2]
    rw [hstate, get_history_add_message st1 st2 sid "assistant" t hadd2,
      get_history_add_message st st1 sid "user" umsg hadd]
    simp
  · intro hfin
    have hstate : (stream_chat_response oracle st sid umsg).state = st1 := by
      unfold stream_chat_response
      rw [hadd]
      dsimp only
      rw [hfin]
    rw [hstate, get_history_add_message st st1 sid "user" umsg hadd]
  · intro acc
    refine ⟨?_, ?_, ?_, ?_⟩
    · intro hfr; unfold finalResponseText; rw [if_pos hfr]
    · intro hfr htr hfm; unfold finalResponseText
      rw [if_neg (not_not_intro hfr), if_pos htr, if_pos hfm]
    · intro hfr htr hfm; unfold finalResponseText
      rw [if_neg (not_not_intro hfr), if_pos htr, if_neg (not_not_intro hfm)]
    · intro hfr htr; unfold finalResponseText
      rw [if_neg (not_not_intro hfr), if_neg (not_not_intro htr)]

/-- Witness for C3 on a fresh session with a model that answers with final
text: the transcript afterwards is exactly user turn then assistant turn. -/
theorem finalized_reply_appended_once_witness :
    session_exists (create_session { conversations := [] } "s1") "s1" = true ∧
    get_history (stream_chat_response oracleHello
        (create_session { conversations := [] } "s1") "s1" "hi").state "s1" =
      [("user", "hi"), ("assistant", "Hello there.")] := by
  have h : session_exists (create_session { conversations := [] } "s1") "s1" = true :=
    session_exists_create { conversations := [] } "s1"
  obtain ⟨st1, hadd, hsome, hnone, hchar⟩ :=
    finalized_reply_appended_once oracleHello
      (create_session { conversations := [] } "s1") "s1" "hi" h
  have hfin : finalResponseText
      (runLoop oracleHello (get_history st1 "s1")).1 = some "Hello there." := by
    rfl
  have hres := hsome "Hello there." hfin
  rw [get_history_create] at hres
  exact ⟨h, by simpa using hres⟩
